import Mathlib

/-!
Shallow embedding of `src/client_interface.rs` from the trow repository.

The file under verification is a façade (`ClientInterface`) between domain
callers and a gRPC backend.  The backend clients (`RegistryClient`,
`AdmissionControllerClient`) are external collaborators: they are embedded as
records of functions from request messages to `Except`-valued responses, so a
theorem can quantify over every possible backend behaviour.  File-system state
is passed explicitly: operations that open files take a file system and return
the (possibly extended) file system next to their result.  Errors
(`failure::Error`) are embedded as strings; `format_err!` becomes string
concatenation.

The `types` module and the protobuf schema are not part of the source tree;
the value types and constructors taken from them are modelled from the spec
and marked as such in their doc comments.
-/

/-! ### Domain value types (from the `types` module) -/

/-- Modelled from the spec: `RepoName` is an opaque repository-name string
(newtype over `String`, `.0` in Rust becomes `.val`). -/
structure RepoName where
  val : String
deriving DecidableEq

/-- Modelled from the spec: `Uuid` is an opaque upload-identifier token string. -/
structure Uuid where
  val : String
deriving DecidableEq

/-- Modelled from the spec: `Digest` is an algorithm-qualified hash string. -/
structure Digest where
  val : String
deriving DecidableEq

/-- Modelled from the spec: `UploadInfo` carries the upload identifier, the
owning repository and a progress byte range. -/
structure UploadInfo where
  uuid : Uuid
  repo_name : RepoName
  range : Nat × Nat
deriving DecidableEq

/-- Modelled from the spec: `create_upload_info` builds an `UploadInfo` from
its three attributes. -/
def create_upload_info (uuid : Uuid) (repo_name : RepoName)
    (range : Nat × Nat) : UploadInfo :=
  { uuid := uuid, repo_name := repo_name, range := range }

/-- Modelled from the spec: `AcceptedUpload` carries the final digest and the
owning repository. -/
structure AcceptedUpload where
  digest : Digest
  repo_name : RepoName
deriving DecidableEq

/-- Modelled from the spec: `create_accepted_upload` builds an
`AcceptedUpload` from its two attributes. -/
def create_accepted_upload (digest : Digest) (repo_name : RepoName) :
    AcceptedUpload :=
  { digest := digest, repo_name := repo_name }

/-- Modelled from the spec: `VerifiedManifest` carries repository, digest,
reference and content type. -/
structure VerifiedManifest where
  repo_name : RepoName
  digest : Digest
  reference : String
  content_type : String
deriving DecidableEq

/-- Modelled from the spec: `create_verified_manifest` builds a
`VerifiedManifest` from its four attributes, in the argument order used at
the call site in `verify_manifest`. -/
def create_verified_manifest (repo_name : RepoName) (digest : Digest)
    (reference : String) (content_type : String) : VerifiedManifest :=
  { repo_name := repo_name, digest := digest, reference := reference,
    content_type := content_type }

/-! ### File-system model

`std::fs` is external to the source file; this is a standard model of the
POSIX open/write behaviour the source relies on.  A file system maps paths to
file contents (lists of characters); a handle records the path it is bound
to, whether it was opened in append mode, and its cursor position. -/

def FS : Type := String → Option (List Char)

def FS.update (fs : FS) (path : String) (contents : List Char) : FS :=
  fun p => if p = path then some contents else fs p

def emptyFS : FS := fun _ => none

structure FileHandle where
  path : String
  append_mode : Bool
  pos : Nat

/-- `OpenOptions` mirrors `std::fs::OpenOptions`: a record of mode flags,
set by builder-style methods below. -/
structure OpenOptions where
  create_flag : Bool := false
  append_flag : Bool := false
  write_flag : Bool := false
  read_flag : Bool := false

def OpenOptions.new : OpenOptions := {}

def OpenOptions.create (o : OpenOptions) (b : Bool) : OpenOptions :=
  { o with create_flag := b }

def OpenOptions.append (o : OpenOptions) (b : Bool) : OpenOptions :=
  { o with append_flag := b }

def OpenOptions.write (o : OpenOptions) (b : Bool) : OpenOptions :=
  { o with write_flag := b }

def OpenOptions.read (o : OpenOptions) (b : Bool) : OpenOptions :=
  { o with read_flag := b }

/-- `OpenOptions::open`: an existing file is opened with the cursor at 0 and
is NOT truncated (the source never sets `truncate`); a missing file is
created empty when `create` is set, otherwise opening fails. -/
def OpenOptions.openFile (o : OpenOptions) (fs : FS) (path : String) :
    Except String (FileHandle × FS) :=
  match fs path with
  | some _ =>
      Except.ok ({ path := path, append_mode := o.append_flag, pos := 0 }, fs)
  | none =>
      if o.create_flag then
        Except.ok ({ path := path, append_mode := o.append_flag, pos := 0 },
          fs.update path [])
      else
        Except.error ("No such file or directory: " ++ path)

/-- `Write::write_all` on a file handle.  In append mode every write goes to
the end of the file; otherwise the data overwrites the contents in place at
the cursor, leaving any bytes past the written region untouched. -/
def FileHandle.write_all (h : FileHandle) (fs : FS) (data : List Char) :
    FS × FileHandle :=
  let contents := (fs h.path).getD []
  if h.append_mode then
    (fs.update h.path (contents ++ data),
      { h with pos := contents.length + data.length })
  else
    (fs.update h.path
        (contents.take h.pos ++ data ++ contents.drop (h.pos + data.length)),
      { h with pos := h.pos + data.length })

/-! ### Readers (from the `types` module), bundling a handle with metadata -/

/-- Modelled from the spec: `ManifestReader` bundles a readable handle with
content type and digest. -/
structure ManifestReader where
  file : FileHandle
  content_type : String
  digest : Digest

/-- Modelled from the spec: `create_manifest_reader` builds a
`ManifestReader` from its three attributes. -/
def create_manifest_reader (file : FileHandle) (content_type : String)
    (digest : Digest) : ManifestReader :=
  { file := file, content_type := content_type, digest := digest }

/-- Modelled from the spec: `BlobReader` bundles a readable handle with a
digest. -/
structure BlobReader where
  file : FileHandle
  digest : Digest

/-- Modelled from the spec: `create_blob_reader` builds a `BlobReader` from
its two attributes. -/
def create_blob_reader (file : FileHandle) (digest : Digest) : BlobReader :=
  { file := file, digest := digest }

/-! ### Collection types built from streams (from the `types` module) -/

/-- Modelled from the spec: `RepoCatalog` is a set of repository names with
no duplicate entries. -/
structure RepoCatalog where
  entries : List RepoName
deriving DecidableEq

def RepoCatalog.new : RepoCatalog := { entries := [] }

/-- Modelled from the spec: set insertion — a name already present is not
added again. -/
def RepoCatalog.insert (c : RepoCatalog) (r : RepoName) : RepoCatalog :=
  if r ∈ c.entries then c else { entries := c.entries ++ [r] }

/-- Modelled from the spec: `TagList` is the owning repository name plus an
ordered collection of tag strings. -/
structure TagList where
  repo_name : RepoName
  tags : List String
deriving DecidableEq

def TagList.new (repo_name : RepoName) : TagList :=
  { repo_name := repo_name, tags := [] }

/-- Modelled from the spec: ordered insertion at the end of the collection. -/
def TagList.insert (l : TagList) (tag : String) : TagList :=
  { l with tags := l.tags ++ [tag] }

/-- Modelled from the spec: `AdmissionReview` carries api version, request
uid, image reference, namespace and operation kind (the source field
`namespace` is a Lean keyword, embedded as `nspace`). -/
structure AdmissionReview where
  api_version : String
  uid : String
  image : String
  nspace : String
  operation : String
deriving DecidableEq

/-! ### Protobuf request and response messages (opaque wire contract)

The wire schema is an external collaborator; each message is embedded as a
record of the fields the source reads or writes.  `Msg::new()` followed by
`set_*` calls collapses to a record literal with those fields. -/

structure UploadRequest where
  repo_name : String
deriving DecidableEq

structure UploadDetails where
  uuid : String
deriving DecidableEq

structure CompleteRequest where
  repo_name : String
  uuid : String
  user_digest : String
deriving DecidableEq

structure CompletedUpload where
  digest : String
deriving DecidableEq

structure BlobRef where
  uuid : String
  repo_name : String
deriving DecidableEq

structure ManifestRef where
  reference : String
  repo_name : String
deriving DecidableEq

structure DownloadRef where
  digest : String
  repo_name : String
deriving DecidableEq

/-- A resolved write location: the source reads only `path` from it. -/
structure WriteLocation where
  path : String
deriving DecidableEq

/-- A resolved manifest read location: path plus content type and digest. -/
structure ManifestReadLocation where
  path : String
  content_type : String
  digest : String
deriving DecidableEq

/-- A resolved blob read location.  The source reads only `path`; a `digest`
field is included so that independence from it is expressible. -/
structure BlobReadLocation where
  path : String
  digest : String
deriving DecidableEq

structure VerifyManifestResponse where
  digest : String
  content_type : String
deriving DecidableEq

structure CatalogRequest where
deriving DecidableEq

structure CatalogEntry where
  repo_name : String
deriving DecidableEq

structure Tag where
  tag : String
deriving DecidableEq

structure AdmissionRequest where
  api_version : String
  uid : String
  image : String
  nspace : String
  operation : String
deriving DecidableEq

structure AdmissionResponse where
  valid : Bool
  reason : String
deriving DecidableEq

/-! ### Server streams

A server stream is a finite list of events; the end of the list is
end-of-stream.  Pulling the next element of the stream
(`into_future().wait()` in the source) yields an item, end-of-stream, or a
transport error. -/

inductive StreamEvent (α : Type) where
  | item (a : α)
  | err (e : String)
deriving DecidableEq

/-! ### Backend clients (external collaborators, quantified over) -/

/-- The generated registry gRPC client: one function per RPC, from request
message to `Except`-valued response (or stream of events). -/
structure RegistryClient where
  request_upload : UploadRequest → Except String UploadDetails
  complete_upload : CompleteRequest → Except String CompletedUpload
  get_write_location_for_blob : BlobRef → Except String WriteLocation
  get_write_location_for_manifest : ManifestRef → Except String WriteLocation
  get_read_location_for_manifest : ManifestRef → Except String ManifestReadLocation
  get_read_location_for_blob : DownloadRef → Except String BlobReadLocation
  verify_manifest : ManifestRef → Except String VerifyManifestResponse
  get_catalog : CatalogRequest → Except String (List (StreamEvent CatalogEntry))
  list_tags : CatalogEntry → Except String (List (StreamEvent Tag))

/-- The generated admission-controller gRPC client. -/
structure AdmissionControllerClient where
  validate_admission : AdmissionRequest → Except String AdmissionResponse

/-- The façade under verification: two sub-clients over one shared channel. -/
structure ClientInterface where
  rc : RegistryClient
  ac : AdmissionControllerClient

/-! ### The façade operations, translated from `src/client_interface.rs` -/

/-- `ClientInterface::request_upload` (`client_interface.rs:45`). -/
def ClientInterface.request_upload (ci : ClientInterface) (fs : FS)
    (repo_name : RepoName) : Except String (UploadInfo × FS) := do
  let req : UploadRequest := { repo_name := repo_name.val }
  let response ← ci.rc.request_upload req
  pure (create_upload_info (Uuid.mk response.uuid) repo_name (0, 0), fs)

/-- `ClientInterface::complete_upload` (`client_interface.rs:58`). -/
def ClientInterface.complete_upload (ci : ClientInterface) (fs : FS)
    (repo_name : RepoName) (uuid : Uuid) (digest : Digest) :
    Except String (AcceptedUpload × FS) := do
  let req : CompleteRequest :=
    { repo_name := repo_name.val, uuid := uuid.val, user_digest := digest.val }
  let resp ← ci.rc.complete_upload req
  pure (create_accepted_upload (Digest.mk resp.digest) repo_name, fs)

/-- `ClientInterface::get_write_sink_for_upload` (`client_interface.rs:76`):
opens the resolved location with `create(true).append(true)`. -/
def ClientInterface.get_write_sink_for_upload (ci : ClientInterface) (fs : FS)
    (repo_name : RepoName) (uuid : Uuid) :
    Except String (FileHandle × FS) := do
  let br : BlobRef := { uuid := uuid.val, repo_name := repo_name.val }
  let resp ← ci.rc.get_write_location_for_blob br
  ((OpenOptions.new.create true).append true).openFile fs resp.path

/-- `ClientInterface::get_write_sink_for_manifest` (`client_interface.rs:95`):
opens the resolved location with `create(true).write(true)` — no truncate
flag is set. -/
def ClientInterface.get_write_sink_for_manifest (ci : ClientInterface)
    (fs : FS) (repo_name : RepoName) (reference : String) :
    Except String (FileHandle × FS) := do
  let mr : ManifestRef := { reference := reference, repo_name := repo_name.val }
  let resp ← ci.rc.get_write_location_for_manifest mr
  ((OpenOptions.new.create true).write true).openFile fs resp.path

/-- `ClientInterface::get_reader_for_manifest` (`client_interface.rs:115`). -/
def ClientInterface.get_reader_for_manifest (ci : ClientInterface) (fs : FS)
    (repo_name : RepoName) (reference : String) :
    Except String (ManifestReader × FS) := do
  let mr : ManifestRef := { reference := reference, repo_name := repo_name.val }
  let resp ← ci.rc.get_read_location_for_manifest mr
  let (file, fs) ← (OpenOptions.new.read true).openFile fs resp.path
  pure (create_manifest_reader file resp.content_type (Digest.mk resp.digest),
    fs)

/-- `ClientInterface::get_reader_for_blob` (`client_interface.rs:136`): the
digest bundled into the reader is the caller-supplied one (cloned), not a
field of the response. -/
def ClientInterface.get_reader_for_blob (ci : ClientInterface) (fs : FS)
    (repo_name : RepoName) (digest : Digest) :
    Except String (BlobReader × FS) := do
  let dr : DownloadRef := { digest := digest.val, repo_name := repo_name.val }
  let resp ← ci.rc.get_read_location_for_blob dr
  let (file, fs) ← (OpenOptions.new.read true).openFile fs resp.path
  pure (create_blob_reader file digest, fs)

/-- `ClientInterface::verify_manifest` (`client_interface.rs:153`). -/
def ClientInterface.verify_manifest (ci : ClientInterface) (fs : FS)
    (repo_name : RepoName) (reference : String) :
    Except String (VerifiedManifest × FS) := do
  let mr : ManifestRef := { reference := reference, repo_name := repo_name.val }
  let resp ← ci.rc.verify_manifest mr
  pure (create_verified_manifest repo_name (Digest.mk resp.digest) reference
    resp.content_type, fs)

/-- The stream-consumption loop of `get_catalog` (`client_interface.rs:178`):
an item is inserted and the loop continues; end-of-stream returns the
accumulated catalog; a stream error aborts with a formatted error. -/
def get_catalog_loop :
    List (StreamEvent CatalogEntry) → RepoCatalog → Except String RepoCatalog
  | [], catalog => Except.ok catalog
  | StreamEvent.item ce :: s, catalog =>
      get_catalog_loop s (catalog.insert (RepoName.mk ce.repo_name))
  | StreamEvent.err e :: _, _ =>
      Except.error ("Failure streaming from server " ++ e)

/-- `ClientInterface::get_catalog` (`client_interface.rs:173`). -/
def ClientInterface.get_catalog (ci : ClientInterface) (fs : FS) :
    Except String (RepoCatalog × FS) := do
  let cr : CatalogRequest := {}
  let repo_stream ← ci.rc.get_catalog cr
  let catalog ← get_catalog_loop repo_stream RepoCatalog.new
  pure (catalog, fs)

/-- The stream-consumption loop of `list_tags` (`client_interface.rs:200`). -/
def list_tags_loop :
    List (StreamEvent Tag) → TagList → Except String TagList
  | [], list => Except.ok list
  | StreamEvent.item tag :: s, list =>
      list_tags_loop s (list.insert tag.tag)
  | StreamEvent.err e :: _, _ =>
      Except.error ("Failure streaming from server " ++ e)

/-- `ClientInterface::list_tags` (`client_interface.rs:193`). -/
def ClientInterface.list_tags (ci : ClientInterface) (fs : FS)
    (repo_name : RepoName) : Except String (TagList × FS) := do
  let ce : CatalogEntry := { repo_name := repo_name.val }
  let tag_stream ← ci.rc.list_tags ce
  let list ← list_tags_loop tag_stream (TagList.new repo_name)
  pure (list, fs)

/-- `ClientInterface::validate_admission` (`client_interface.rs:218`): fails
with the backend-supplied reason when `valid` is false. -/
def ClientInterface.validate_admission (ci : ClientInterface) (fs : FS)
    (a_rev : AdmissionReview) : Except String (Unit × FS) := do
  let a_req : AdmissionRequest :=
    { api_version := a_rev.api_version, uid := a_rev.uid,
      image := a_rev.image, nspace := a_rev.nspace,
      operation := a_rev.operation }
  let resp ← ci.ac.validate_admission a_req
  if !resp.valid then
    Except.error ("Failed validation: " ++ resp.reason)
  else
    pure ((), fs)

/-! ### Write-twice scenarios

The spec phrases the open-mode contracts operationally: obtain two sinks for
the same reference/identifier, write through each, look at the final file.
These scenario definitions compose the façade operations accordingly. -/

/-- Obtain a manifest sink, write `a`, obtain a second sink for the same
reference, write `b`; return the final file system. -/
def manifest_write_twice (ci : ClientInterface) (fs : FS)
    (repo_name : RepoName) (reference : String) (a b : List Char) :
    Except String FS := do
  let (sink1, fs1) ← ci.get_write_sink_for_manifest fs repo_name reference
  let (fs2, _) := sink1.write_all fs1 a
  let (sink2, fs3) ← ci.get_write_sink_for_manifest fs2 repo_name reference
  let (fs4, _) := sink2.write_all fs3 b
  pure fs4

/-- Obtain an upload sink, write `a`, obtain a second sink for the same
identifier, write `b`; return the final file system. -/
def upload_write_twice (ci : ClientInterface) (fs : FS)
    (repo_name : RepoName) (uuid : Uuid) (a b : List Char) :
    Except String FS := do
  let (sink1, fs1) ← ci.get_write_sink_for_upload fs repo_name uuid
  let (fs2, _) := sink1.write_all fs1 a
  let (sink2, fs3) ← ci.get_write_sink_for_upload fs2 repo_name uuid
  let (fs4, _) := sink2.write_all fs3 b
  pure fs4

/-! ### Concrete backends for witnesses and counterexamples -/

/-- A concrete backend whose every RPC succeeds with fixed data. -/
def testClient : ClientInterface where
  rc :=
    { request_upload := fun _ => Except.ok { uuid := "uuid-1" },
      complete_upload := fun _ => Except.ok { digest := "sha256:backend" },
      get_write_location_for_blob := fun _ => Except.ok { path := "u" },
      get_write_location_for_manifest := fun _ => Except.ok { path := "m" },
      get_read_location_for_manifest := fun _ =>
        Except.ok { path := "rm", content_type := "ct", digest := "dm" },
      get_read_location_for_blob := fun _ =>
        Except.ok { path := "rb", digest := "sha256:other" },
      verify_manifest := fun _ =>
        Except.ok { digest := "sha256:v", content_type := "application/vnd" },
      get_catalog := fun _ =>
        Except.ok [StreamEvent.item { repo_name := "r1" },
          StreamEvent.item { repo_name := "r2" }],
      list_tags := fun _ =>
        Except.ok [StreamEvent.item { tag := "t1" },
          StreamEvent.item { tag := "t2" }] }
  ac :=
    { validate_admission := fun _ =>
        Except.ok { valid := false, reason := "image not allowed" } }

/-- A concrete backend whose streams fail after yielding some items. -/
def errClient : ClientInterface where
  rc :=
    { testClient.rc with
      get_catalog := fun _ =>
        Except.ok [StreamEvent.item { repo_name := "r1" },
          StreamEvent.item { repo_name := "r2" }, StreamEvent.err "boom"],
      list_tags := fun _ =>
        Except.ok [StreamEvent.item { tag := "t1" }, StreamEvent.err "boom"] }
  ac := testClient.ac

/-- A file system holding one blob and one manifest to read. -/
def testFS : FS := FS.update (FS.update emptyFS "rb" ['z']) "rm" ['w']

/-! ### Helper lemmas -/

theorem FS.update_same (fs : FS) (p : String) (c : List Char) :
    FS.update fs p c p = some c := by
  simp [FS.update]

/-! ### Monad-reduction helper lemmas -/

theorem except_ok_bind {α β ε : Type} (a : α) (f : α → Except ε β) :
    (Except.ok a : Except ε α) >>= f = f a := rfl

theorem except_error_bind {α β ε : Type} (e : ε) (f : α → Except ε β) :
    (Except.error e : Except ε α) >>= f = Except.error e := rfl

theorem except_pure_eq {α ε : Type} (a : α) :
    (pure a : Except ε α) = Except.ok a := rfl

/-! ### Claims C1 and C4: open modes of the two write sinks -/

/-- Claim C1: the claim states `get_write_sink_for_manifest` opens in
create-or-truncate mode so that writing A then B through two sinks for the
same reference leaves only B's bytes.  The source opens with
`create(true).write(true)` and never sets `truncate`, so the second write
overlays its bytes at position 0 without truncating: writing "ab" then "c"
leaves "cb", not "c". -/
theorem get_write_sink_for_manifest_not_truncating :
    (manifest_write_twice testClient emptyFS (RepoName.mk "r") "latest"
        ['a', 'b'] ['c']).map (fun fs => fs "m") =
      Except.ok (some ['c', 'b']) ∧ ¬(['c', 'b'] = ['c']) :=
  ⟨rfl, by decide⟩

/-- Claim C4: for every backend that resolves the upload's blob reference to
a path `p`, writing `a` then `b` through two sinks obtained for the same
`(repo, identifier)` concatenates onto the existing contents of `p`: the
final file is the old contents followed by `a ++ b`.  Earlier bytes are never
overwritten. -/
theorem get_write_sink_for_upload_appends (ci : ClientInterface) (fs : FS)
    (repo_name : RepoName) (uuid : Uuid) (p : String) (a b : List Char)
    (h : ci.rc.get_write_location_for_blob
        { uuid := uuid.val, repo_name := repo_name.val } =
      Except.ok { path := p }) :
    ∃ fs₂, upload_write_twice ci fs repo_name uuid a b = Except.ok fs₂ ∧
      fs₂ p = some ((fs p).getD [] ++ (a ++ b)) := by
  unfold upload_write_twice ClientInterface.get_write_sink_for_upload
  cases hfp : fs p with
  | some c =>
      refine ⟨FS.update (FS.update fs p (c ++ a)) p (c ++ (a ++ b)), ?_, ?_⟩
      · simp [h, hfp, except_ok_bind, except_pure_eq, OpenOptions.openFile,
          FileHandle.write_all, FS.update_same, OpenOptions.new,
          OpenOptions.create, OpenOptions.append]
      · simp [FS.update_same]
  | none =>
      refine ⟨FS.update (FS.update (FS.update fs p []) p a) p (a ++ b),
        ?_, ?_⟩
      · simp [h, hfp, except_ok_bind, except_pure_eq, OpenOptions.openFile,
          FileHandle.write_all, FS.update_same, OpenOptions.new,
          OpenOptions.create, OpenOptions.append]
      · simp [FS.update_same, hfp]

/-- Witness for claim C4 at a concrete backend, repository and identifier. -/
theorem get_write_sink_for_upload_appends_witness :
    ∃ fs₂, upload_write_twice testClient emptyFS (RepoName.mk "r")
        (Uuid.mk "uuid-1") ['x'] ['y', 'z'] = Except.ok fs₂ ∧
      fs₂ "u" = some ((emptyFS "u").getD [] ++ (['x'] ++ ['y', 'z'])) :=
  get_write_sink_for_upload_appends testClient emptyFS (RepoName.mk "r")
    (Uuid.mk "uuid-1") "u" ['x'] ['y', 'z'] rfl

/-! ### Stream-consumption lemmas for claims C2 and C5 -/

theorem get_catalog_loop_err (l : List CatalogEntry) (e : String)
    (rest : List (StreamEvent CatalogEntry)) (c : RepoCatalog) :
    get_catalog_loop (l.map StreamEvent.item ++ StreamEvent.err e :: rest) c =
      Except.error ("Failure streaming from server " ++ e) := by
  induction l generalizing c with
  | nil => rfl
  | cons x xs ih => simp [get_catalog_loop, ih]

theorem list_tags_loop_err (t : List Tag) (e : String)
    (rest : List (StreamEvent Tag)) (l : TagList) :
    list_tags_loop (t.map StreamEvent.item ++ StreamEvent.err e :: rest) l =
      Except.error ("Failure streaming from server " ++ e) := by
  induction t generalizing l with
  | nil => rfl
  | cons x xs ih => simp [list_tags_loop, ih]

theorem RepoCatalog.mem_insert (c : RepoCatalog) (x r : RepoName) :
    r ∈ (c.insert x).entries ↔ r = x ∨ r ∈ c.entries := by
  unfold RepoCatalog.insert
  split
  · next hx =>
      constructor
      · exact fun hr => Or.inr hr
      · rintro (rfl | hr)
        · exact hx
        · exact hr
  · next hx => simp [or_comm]

theorem get_catalog_loop_items (l : List CatalogEntry) (c : RepoCatalog) :
    ∃ c₂, get_catalog_loop (l.map StreamEvent.item) c = Except.ok c₂ ∧
      ∀ r, r ∈ c₂.entries ↔
        r ∈ c.entries ∨ r ∈ l.map (fun ce => RepoName.mk ce.repo_name) := by
  induction l generalizing c with
  | nil => exact ⟨c, rfl, by simp⟩
  | cons x xs ih =>
      obtain ⟨c₂, h1, h2⟩ := ih (c.insert (RepoName.mk x.repo_name))
      refine ⟨c₂, by simpa [get_catalog_loop] using h1, fun r => ?_⟩
      rw [h2 r, RepoCatalog.mem_insert]
      simp only [List.map_cons, List.mem_cons]
      tauto

theorem list_tags_loop_items (t : List Tag) (l : TagList) :
    list_tags_loop (t.map StreamEvent.item) l =
      Except.ok { repo_name := l.repo_name, tags := l.tags ++ t.map Tag.tag } := by
  induction t generalizing l with
  | nil => simp [list_tags_loop]
  | cons x xs ih => simp [list_tags_loop, TagList.insert, ih]

/-! ### Claims C2 and C5: all-or-nothing, exhaustive stream consumption -/

/-- Claim C2: whenever the backend stream yields some items and then a
stream error, `get_catalog` (resp. `list_tags`) returns a failure — the
partial accumulation is discarded and no collection is returned at all. -/
theorem stream_error_discards_partial (ci : ClientInterface) (fs : FS)
    (repo_name : RepoName) (lc : List CatalogEntry) (lt : List Tag)
    (e₁ e₂ : String) (r₁ : List (StreamEvent CatalogEntry))
    (r₂ : List (StreamEvent Tag))
    (h₁ : ci.rc.get_catalog {} =
      Except.ok (lc.map StreamEvent.item ++ StreamEvent.err e₁ :: r₁))
    (h₂ : ci.rc.list_tags { repo_name := repo_name.val } =
      Except.ok (lt.map StreamEvent.item ++ StreamEvent.err e₂ :: r₂)) :
    ci.get_catalog fs = Except.error ("Failure streaming from server " ++ e₁) ∧
    ci.list_tags fs repo_name =
      Except.error ("Failure streaming from server " ++ e₂) := by
  constructor
  · unfold ClientInterface.get_catalog
    simp [h₁, except_ok_bind, get_catalog_loop_err, except_error_bind]
  · unfold ClientInterface.list_tags
    simp [h₂, except_ok_bind, list_tags_loop_err, except_error_bind]

/-- Witness for claim C2: a backend whose catalog stream yields two items
then fails, and whose tag stream yields one item then fails. -/
theorem stream_error_discards_partial_witness :
    errClient.get_catalog emptyFS =
      Except.error ("Failure streaming from server " ++ "boom") ∧
    errClient.list_tags emptyFS (RepoName.mk "r") =
      Except.error ("Failure streaming from server " ++ "boom") :=
  stream_error_discards_partial errClient emptyFS (RepoName.mk "r")
    [{ repo_name := "r1" }, { repo_name := "r2" }] [{ tag := "t1" }]
    "boom" "boom" [] [] rfl rfl

/-- Claim C5: whenever the backend stream yields a finite item sequence and
then end-of-stream, `get_catalog` returns a catalog whose members are
exactly the yielded repository names, and `list_tags` returns exactly the
yielded tags, in order. -/
theorem stream_consumed_to_exhaustion (ci : ClientInterface) (fs : FS)
    (repo_name : RepoName) (lc : List CatalogEntry) (lt : List Tag)
    (h₁ : ci.rc.get_catalog {} = Except.ok (lc.map StreamEvent.item))
    (h₂ : ci.rc.list_tags { repo_name := repo_name.val } =
      Except.ok (lt.map StreamEvent.item)) :
    (∃ c, ci.get_catalog fs = Except.ok (c, fs) ∧
      ∀ r, r ∈ c.entries ↔ r ∈ lc.map (fun ce => RepoName.mk ce.repo_name)) ∧
    ci.list_tags fs repo_name =
      Except.ok ({ repo_name := repo_name, tags := lt.map Tag.tag }, fs) := by
  constructor
  · obtain ⟨c₂, h1, h2⟩ := get_catalog_loop_items lc RepoCatalog.new
    refine ⟨c₂, ?_, fun r => ?_⟩
    · unfold ClientInterface.get_catalog
      simp [h₁, except_ok_bind, h1, except_pure_eq]
    · rw [h2 r]
      simp [RepoCatalog.new]
  · unfold ClientInterface.list_tags
    simp [h₂, except_ok_bind, list_tags_loop_items, except_pure_eq, TagList.new]

/-- Witness for claim C5: a backend whose catalog stream yields two
repositories and whose tag stream yields two tags, each then ending. -/
theorem stream_consumed_to_exhaustion_witness :
    (∃ c, testClient.get_catalog emptyFS = Except.ok (c, emptyFS) ∧
      ∀ r, r ∈ c.entries ↔
        r ∈ ([{ repo_name := "r1" }, { repo_name := "r2" }] :
            List CatalogEntry).map (fun ce => RepoName.mk ce.repo_name)) ∧
    testClient.list_tags emptyFS (RepoName.mk "r") =
      Except.ok
        ({ repo_name := RepoName.mk "r",
           tags := ([{ tag := "t1" }, { tag := "t2" }] : List Tag).map Tag.tag },
          emptyFS) :=
  stream_consumed_to_exhaustion testClient emptyFS (RepoName.mk "r")
    [{ repo_name := "r1" }, { repo_name := "r2" }]
    [{ tag := "t1" }, { tag := "t2" }] rfl rfl

/-! ### Claim C3: admission validation -/

/-- Claim C3: given a backend admission response, `validate_admission`
succeeds exactly when the response's `valid` flag is true; when `valid` is
false the failure's message embeds the backend-supplied reason verbatim. -/
theorem validate_admission_iff_valid (ci : ClientInterface) (fs : FS)
    (a_rev : AdmissionReview) (resp : AdmissionResponse)
    (h : ci.ac.validate_admission
        { api_version := a_rev.api_version, uid := a_rev.uid,
          image := a_rev.image, nspace := a_rev.nspace,
          operation := a_rev.operation } = Except.ok resp) :
    (ci.validate_admission fs a_rev = Except.ok ((), fs) ↔ resp.valid = true) ∧
    (resp.valid = false →
      ci.validate_admission fs a_rev =
        Except.error ("Failed validation: " ++ resp.reason)) := by
  unfold ClientInterface.validate_admission
  cases hv : resp.valid <;>
    simp [h, except_ok_bind, except_pure_eq, hv]

/-- A concrete admission review for the claim C3 witness. -/
def testReview : AdmissionReview :=
  { api_version := "v1", uid := "u1", image := "img", nspace := "ns",
    operation := "CREATE" }

/-- Witness for claim C3: the concrete backend rejects with reason
"image not allowed", and the failure embeds exactly that reason. -/
theorem validate_admission_iff_valid_witness :
    (testClient.validate_admission emptyFS testReview =
        Except.ok ((), emptyFS) ↔
      ({ valid := false, reason := "image not allowed" } :
          AdmissionResponse).valid = true) ∧
    (({ valid := false, reason := "image not allowed" } :
        AdmissionResponse).valid = false →
      testClient.validate_admission emptyFS testReview =
        Except.error ("Failed validation: " ++
          ({ valid := false, reason := "image not allowed" } :
              AdmissionResponse).reason)) :=
  validate_admission_iff_valid testClient emptyFS testReview
    { valid := false, reason := "image not allowed" } rfl

/-! ### Claim C6: the completed upload carries the backend's digest -/

/-- Claim C6: a successful `complete_upload` returns an `AcceptedUpload`
whose digest is the digest field of the backend response, independent of the
caller-supplied digest. -/
theorem complete_upload_backend_digest (ci : ClientInterface) (fs : FS)
    (repo_name : RepoName) (uuid : Uuid) (digest : Digest)
    (resp : CompletedUpload)
    (h : ci.rc.complete_upload
        { repo_name := repo_name.val, uuid := uuid.val,
          user_digest := digest.val } = Except.ok resp) :
    ci.complete_upload fs repo_name uuid digest =
      Except.ok (create_accepted_upload (Digest.mk resp.digest) repo_name,
        fs) := by
  unfold ClientInterface.complete_upload
  simp [h, except_ok_bind, except_pure_eq]

/-- Witness for claim C6: the backend confirms digest "sha256:backend"
while the caller asserted "sha256:caller"; the returned digest is the
backend's, and the two differ. -/
theorem complete_upload_backend_digest_witness :
    testClient.complete_upload emptyFS (RepoName.mk "r") (Uuid.mk "uuid-1")
        (Digest.mk "sha256:caller") =
      Except.ok (create_accepted_upload (Digest.mk "sha256:backend")
        (RepoName.mk "r"), emptyFS) ∧
    Digest.mk "sha256:backend" ≠ Digest.mk "sha256:caller" :=
  ⟨complete_upload_backend_digest testClient emptyFS (RepoName.mk "r")
      (Uuid.mk "uuid-1") (Digest.mk "sha256:caller")
      { digest := "sha256:backend" } rfl,
    by decide⟩

/-! ### Claims C7 and C10: fields of the verified manifest -/

/-- Claim C7: the `VerifiedManifest` built from a backend response carrying
digest `D` and content type `T` exposes exactly `D` and `T`, unmodified. -/
theorem verify_manifest_round_trip (ci : ClientInterface) (fs : FS)
    (repo_name : RepoName) (reference : String)
    (resp : VerifyManifestResponse)
    (h : ci.rc.verify_manifest
        { reference := reference, repo_name := repo_name.val } =
      Except.ok resp) :
    ∃ vm, ci.verify_manifest fs repo_name reference = Except.ok (vm, fs) ∧
      vm.digest = Digest.mk resp.digest ∧
      vm.content_type = resp.content_type := by
  refine ⟨create_verified_manifest repo_name (Digest.mk resp.digest)
      reference resp.content_type, ?_, rfl, rfl⟩
  unfold ClientInterface.verify_manifest
  simp [h, except_ok_bind, except_pure_eq]

/-- Witness for claim C7 at the concrete backend. -/
theorem verify_manifest_round_trip_witness :
    ∃ vm, testClient.verify_manifest emptyFS (RepoName.mk "r") "latest" =
        Except.ok (vm, emptyFS) ∧
      vm.digest = Digest.mk "sha256:v" ∧
      vm.content_type = "application/vnd" :=
  verify_manifest_round_trip testClient emptyFS (RepoName.mk "r") "latest"
    { digest := "sha256:v", content_type := "application/vnd" } rfl

/-- Claim C10: the repo and reference fields of a successful
`verify_manifest` result are the caller-supplied inputs, unchanged. -/
theorem verify_manifest_echoes_inputs (ci : ClientInterface) (fs : FS)
    (repo_name : RepoName) (reference : String)
    (resp : VerifyManifestResponse)
    (h : ci.rc.verify_manifest
        { reference := reference, repo_name := repo_name.val } =
      Except.ok resp) :
    ∃ vm, ci.verify_manifest fs repo_name reference = Except.ok (vm, fs) ∧
      vm.repo_name = repo_name ∧ vm.reference = reference := by
  refine ⟨create_verified_manifest repo_name (Digest.mk resp.digest)
      reference resp.content_type, ?_, rfl, rfl⟩
  unfold ClientInterface.verify_manifest
  simp [h, except_ok_bind, except_pure_eq]

/-- Witness for claim C10 at the concrete backend. -/
theorem verify_manifest_echoes_inputs_witness :
    ∃ vm, testClient.verify_manifest emptyFS (RepoName.mk "r") "latest" =
        Except.ok (vm, emptyFS) ∧
      vm.repo_name = RepoName.mk "r" ∧ vm.reference = "latest" :=
  verify_manifest_echoes_inputs testClient emptyFS (RepoName.mk "r") "latest"
    { digest := "sha256:v", content_type := "application/vnd" } rfl

/-! ### Claim C8: request_upload returns a zeroed range and opens no I/O -/

/-- Claim C8: a successful `request_upload` returns an `UploadInfo` whose
range is exactly `(0, 0)` and whose identifier is the uuid of the backend
response; the file system is returned untouched (no I/O handle is opened). -/
theorem request_upload_zeroed_range (ci : ClientInterface) (fs : FS)
    (repo_name : RepoName) (resp : UploadDetails)
    (h : ci.rc.request_upload { repo_name := repo_name.val } =
      Except.ok resp) :
    ci.request_upload fs repo_name =
      Except.ok (create_upload_info (Uuid.mk resp.uuid) repo_name (0, 0),
        fs) := by
  unfold ClientInterface.request_upload
  simp [h, except_ok_bind, except_pure_eq]

/-- Witness for claim C8 at the concrete backend. -/
theorem request_upload_zeroed_range_witness :
    testClient.request_upload emptyFS (RepoName.mk "r") =
      Except.ok (create_upload_info (Uuid.mk "uuid-1") (RepoName.mk "r")
        (0, 0), emptyFS) :=
  request_upload_zeroed_range testClient emptyFS (RepoName.mk "r")
    { uuid := "uuid-1" } rfl

/-! ### Claim C9: the blob reader echoes the caller's digest -/

/-- Claim C9: the digest bundled into the `BlobReader` returned by
`get_reader_for_blob` is the caller-supplied digest, for every backend
response — in particular the response's own digest field is never
consulted. -/
theorem get_reader_for_blob_echoes_digest (ci : ClientInterface) (fs : FS)
    (repo_name : RepoName) (digest : Digest) (resp : BlobReadLocation)
    (contents : List Char)
    (h : ci.rc.get_read_location_for_blob
        { digest := digest.val, repo_name := repo_name.val } =
      Except.ok resp)
    (hfile : fs resp.path = some contents) :
    ∃ br fs₂, ci.get_reader_for_blob fs repo_name digest =
        Except.ok (br, fs₂) ∧ br.digest = digest := by
  refine ⟨create_blob_reader
      { path := resp.path, append_mode := false, pos := 0 } digest, fs,
    ?_, rfl⟩
  unfold ClientInterface.get_reader_for_blob
  simp [h, except_ok_bind, except_pure_eq, OpenOptions.openFile, hfile,
    OpenOptions.new, OpenOptions.read]

/-- Witness for claim C9: the backend's read-location response carries
digest "sha256:other", the caller asked for "sha256:mine"; the reader
carries the caller's digest, and the two differ. -/
theorem get_reader_for_blob_echoes_digest_witness :
    (∃ br fs₂, testClient.get_reader_for_blob testFS (RepoName.mk "r")
        (Digest.mk "sha256:mine") = Except.ok (br, fs₂) ∧
      br.digest = Digest.mk "sha256:mine") ∧
    Digest.mk "sha256:mine" ≠ Digest.mk "sha256:other" :=
  ⟨get_reader_for_blob_echoes_digest testClient testFS (RepoName.mk "r")
      (Digest.mk "sha256:mine") { path := "rb", digest := "sha256:other" }
      ['z'] rfl rfl,
    by decide⟩
